import Mathlib

/-!
Shallow embedding of the QR Restaurant Ordering backend
(`main.py` request handlers over `schemas.py` pydantic models, MongoDB
collections modelled as Lean lists in insertion order).

Conventions of the embedding:
* A MongoDB collection is a `List` of document structures, in insertion
  order (`insert_one` appends at the end).
* `find_one(q)` is `List.find?` (first match), `update_one(q, {$set: ...})`
  updates the first match only, `delete_one(q)` removes the first match
  and reports the deleted count — matching MongoDB single-document
  operation semantics.
* Python `str` is Lean `String`; Python `int` is `Int`; pydantic `float`
  fields (prices, amounts) are modelled as `Rat` since the program only
  stores and compares them, never does float arithmetic on them.
* A handler that can raise is `Except HErr _`; `HErr.httpExc` is FastAPI's
  `HTTPException(status_code, detail)` and `HErr.valueError` is a plain
  Python `ValueError` escaping the handler.  Per FastAPI/Starlette
  semantics an uncaught exception that is not an `HTTPException` is
  surfaced to the client as a 500 Internal Server Error
  (`responseStatus`).
* Stateful handlers take the relevant collection and return the response
  together with the collection afterwards.
-/

deriving instance DecidableEq for Except

namespace QR

/-- FastAPI error model: `HTTPException(status, detail)` raised by a
handler, or any other exception (here: `ValueError`, raised by
`PyObjectId.validate`) escaping the handler. -/
inductive HErr where
  | httpExc (status : Nat) (detail : String)
  | valueError (msg : String)
deriving DecidableEq, Repr

/-- The HTTP status code the client sees for an exception that escapes a
route handler: an `HTTPException` carries its own status code; any other
uncaught exception is turned into a 500 Internal Server Error by
Starlette's server-error middleware. -/
def responseStatus : HErr → Nat
  | .httpExc s _ => s
  | .valueError _ => 500

/-- Python truthiness of an `Optional[str]`: `None` and `""` are falsy. -/
def pyTruthy : Option String → Bool
  | none => false
  | some s => decide (s ≠ "")

/-- ASCII lowercase of one character (kernel-friendly form of
`Char.toLower`; ObjectId strings are pure ASCII). -/
def charToLower (c : Char) : Char :=
  if 65 ≤ c.toNat ∧ c.toNat ≤ 90 then Char.ofNat (c.toNat + 32) else c

/-- ASCII lowercase of a string, character by character. -/
def strToLower (s : String) : String := ⟨s.data.map charToLower⟩

/-- Lexicographic byte-order comparison of character lists (the order
MongoDB uses when sorting string keys). -/
def charListLe : List Char → List Char → Bool
  | [], _ => true
  | _ :: _, [] => false
  | a :: as, b :: bs =>
    if a.toNat < b.toNat then true
    else if b.toNat < a.toNat then false
    else charListLe as bs

/-- Lexicographic byte-order comparison of strings. -/
def strLe (a b : String) : Bool := charListLe a.data b.data

/-- Model of `bson.ObjectId.is_valid` on a string input: a 24 character hex
string. -/
def objectIdIsValid (s : String) : Bool :=
  s.length == 24 && s.data.all (fun c => c.isDigit || ('a' ≤ c && c ≤ 'f') || ('A' ≤ c && c ≤ 'F'))

/-- Model of `PyObjectId.validate` (main.py): accepts a well-formed ObjectId
string, normalising it to its canonical lowercase form (the form
`str(ObjectId(v))` yields); raises `ValueError("Invalid ObjectId")`
otherwise. -/
def PyObjectId.validate (v : String) : Except HErr String :=
  if objectIdIsValid v then .ok (strToLower v) else .error (.valueError "Invalid ObjectId")

/-- Mongo `update_one(q, {"$set": ...})` on a collection: rewrites the
first matching document only. -/
def update_one (p : α → Bool) (f : α → α) : List α → List α
  | [] => []
  | d :: rest => if p d then f d :: rest else d :: update_one p f rest

/-- Mongo `delete_one(q)`: removes the first matching document and
returns the `deleted_count` together with the collection afterwards. -/
def delete_one (p : α → Bool) : List α → Nat × List α
  | [] => (0, [])
  | d :: rest =>
    if p d then (1, rest)
    else
      let r := delete_one p rest
      (r.1, d :: r.2)

/-- Stable insertion into a list sorted by `le` (helper of `sortBy`). -/
def insertSorted (le : α → α → Bool) (a : α) : List α → List α
  | [] => [a]
  | b :: rest => if le a b then a :: b :: rest else b :: insertSorted le a rest

/-- Mongo `find(q).sort(key, dir)`: stable sort of the matching documents
by the comparator `le` (insertion sort). -/
def sortBy (le : α → α → Bool) : List α → List α
  | [] => []
  | a :: rest => insertSorted le a (sortBy le rest)

/-! ## Rewards service (`rewardaccount` collection) -/

/-- A stored reward-account document: `{_id, customer_phone, points,
tier}` as created by `get_rewards` / `add_points`.  `_id` is the opaque
storage-assigned ObjectId, modelled as a `Nat`. -/
structure RewardDoc where
  _id : Nat
  customer_phone : String
  points : Int
  tier : String
deriving DecidableEq, Repr

/-- The JSON shape `oid_str` produces for a reward account: the internal
`_id` replaced by its string form under the key `id`. -/
structure RewardOut where
  id : String
  customer_phone : String
  points : Int
  tier : String
deriving DecidableEq, Repr

/-- Model of `oid_str` on a reward-account document. -/
def rewardOut (d : RewardDoc) : RewardOut :=
  ⟨toString d._id, d.customer_phone, d.points, d.tier⟩

/-- Model of `GET /api/rewards/{phone}` (main.py `get_rewards`): look the account
up by phone; if absent, insert `{customer_phone: phone, points: 0, tier:
"Bronze"}` (the storage layer assigns the fresh id `freshId`) and return
it; the response is the account with `_id` rendered as `id`. -/
def get_rewards (phone : String) (freshId : Nat) (db : List RewardDoc) :
    RewardOut × List RewardDoc :=
  match db.find? (fun a => decide (a.customer_phone = phone)) with
  | some acc => (rewardOut acc, db)
  | none =>
    let acc : RewardDoc := ⟨freshId, phone, 0, "Bronze"⟩
    (rewardOut acc, db ++ [acc])

/-- Model of `POST /api/rewards/{phone}/add` (main.py `add_points`), after the
admin dependency has passed: look up or create the account, clamp
`points + body.points` at 0, recompute the tier by the fixed thresholds,
`$set` both fields on the account's `_id`, re-fetch and return it
(`oid_str(None)` would yield a null response, hence `Option`). -/
def add_points (phone : String) (body_points : Int) (freshId : Nat)
    (db : List RewardDoc) : Option RewardOut × List RewardDoc :=
  let found := db.find? (fun a => decide (a.customer_phone = phone))
  let acc : RewardDoc :=
    match found with
    | some a => a
    | none => ⟨freshId, phone, 0, "Bronze"⟩
  let db1 : List RewardDoc :=
    match found with
    | some _ => db
    | none => db ++ [acc]
  let new_points : Int := max 0 (acc.points + body_points)
  let tier : String :=
    if new_points ≥ 500 then "Gold" else if new_points ≥ 200 then "Silver" else "Bronze"
  let db2 := update_one (fun a => decide (a._id = acc._id))
    (fun a => { a with points := new_points, tier := tier }) db1
  ((db2.find? (fun a => decide (a._id = acc._id))).map rewardOut, db2)

/-- The point total `add_points` starts from: `acc.get("points", 0)` of
the first account matching the phone, or 0 when the account is about to
be created. -/
def storedPoints (phone : String) (db : List RewardDoc) : Int :=
  match db.find? (fun a => decide (a.customer_phone = phone)) with
  | some a => a.points
  | none => 0

/-! ## Admin authentication (`require_admin` dependency) -/

/-- Python `s.replace("Bearer ", "")`: remove every non-overlapping
occurrence of the 7-character pattern `Bearer ` (capital B, trailing
space), scanning left to right. -/
def removeBearer : List Char → List Char
  | 'B' :: 'e' :: 'a' :: 'r' :: 'e' :: 'r' :: ' ' :: rest => removeBearer rest
  | c :: rest => c :: removeBearer rest
  | [] => []

/-- Model of `authorization.replace("Bearer ", "")` on the header string. -/
def removeBearerStr (s : String) : String := ⟨removeBearer s.data⟩

/-- Model of main.py `require_admin`:
`token = authorization.replace("Bearer ", "") if authorization else None`
— the guard is Python truthiness, so a missing header AND a
present-but-empty header both leave `token = None`; the stripped token
is then compared with the configured admin token (`ADMIN_TOKEN`, default
`admin-demo-token`); a mismatch raises `HTTPException(401,
"Unauthorized")`, a match returns `True`. -/
def require_admin (authorization : Option String) (admin_token : String) :
    Except HErr Bool :=
  let token : Option String :=
    if pyTruthy authorization then Option.map removeBearerStr authorization
    else none
  if token = some admin_token then .ok true
  else .error (.httpExc 401 "Unauthorized")

/-- Model of `Depends(require_admin)` on a route: the dependency runs before the
handler body; if it raises, the handler body (whatever response it would
have produced) is never evaluated. -/
def adminRoute (authorization : Option String) (admin_token : String)
    (handler : Except HErr α) : Except HErr α :=
  match require_admin authorization admin_token with
  | .error e => .error e
  | .ok _ => handler

/-- The hardcoded fallback of the `ADMIN_TOKEN` environment variable. -/
def defaultAdminToken : String := "admin-demo-token"

/-! ## Menu service (`menuitem` collection) -/

/-- Model of schemas.py `MenuItem` (pydantic): URL fields modelled as plain
strings, `price: float (ge=0)` modelled as `Rat` (stored and compared
only, no float arithmetic anywhere in the program). -/
structure MenuItem where
  title : String
  description : Option String
  price : Rat
  category : String
  image_url : Option String
  is_available : Bool
deriving DecidableEq, Repr

/-- The pydantic validation constraints on `MenuItem`: `price ≥ 0` and
`category ∈ {Drinks, Desserts, Meals}` (`Literal`). -/
def MenuItem.validB (m : MenuItem) : Bool :=
  decide (0 ≤ m.price) && (["Drinks", "Desserts", "Meals"].contains m.category)

/-- A stored menu document: the payload fields of `MenuItem.model_dump()`
plus the storage-assigned `_id` (ObjectId, rendered as its lowercase hex
string). -/
structure MenuDoc where
  _id : String
  body : MenuItem
deriving DecidableEq, Repr

/-- Model of `oid_str` output shape for a menu document: string `id` plus the
payload fields. -/
structure MenuOut where
  id : String
  body : MenuItem
deriving DecidableEq, Repr

/-- Model of `GET /api/menu?category=` (main.py `list_menu`): query is
`{"category": category}` when the parameter is truthy (present and
non-empty), `{}` otherwise; matching items are sorted ascending by title
and normalised by `oid_str`. -/
def list_menu (category : Option String) (db : List MenuDoc) : List MenuOut :=
  let q : Option String := if pyTruthy category then category else none
  let hits := db.filter (fun d =>
    match q with
    | none => true
    | some c => decide (d.body.category = c))
  (sortBy (fun a b => strLe a.body.title b.body.title) hits).map
    (fun d => ⟨d._id, d.body⟩)

/-- Model of `PUT /api/menu/{item_id}` (main.py `update_menu_item`), after the
admin dependency: validate the id (an invalid id raises `ValueError`
before the collection is touched), `$set` the full payload on the first
matching document, re-fetch it; 404 if nothing is there. -/
def update_menu_item (item_id : String) (item : MenuItem)
    (db : List MenuDoc) : Except HErr MenuOut × List MenuDoc :=
  match PyObjectId.validate item_id with
  | .error e => (.error e, db)
  | .ok oid =>
    let db2 := update_one (fun d => decide (d._id = oid))
      (fun d => { d with body := item }) db
    match db2.find? (fun d => decide (d._id = oid)) with
    | none => (.error (.httpExc 404 "Item not found"), db2)
    | some doc => (.ok ⟨doc._id, doc.body⟩, db2)

/-- Model of `DELETE /api/menu/{item_id}` (main.py `delete_menu_item`), after the
admin dependency: validate the id, `delete_one`; 404 when
`deleted_count == 0`, `{"ok": true}` otherwise. -/
def delete_menu_item (item_id : String) (db : List MenuDoc) :
    Except HErr Bool × List MenuDoc :=
  match PyObjectId.validate item_id with
  | .error e => (.error e, db)
  | .ok oid =>
    let res := delete_one (fun d => decide (d._id = oid)) db
    if res.1 = 0 then (.error (.httpExc 404 "Item not found"), res.2)
    else (.ok true, res.2)

/-! ## Order service (`order` collection) -/

/-- Model of schemas.py `OrderItem` (embedded in an order). -/
structure OrderItem where
  item_id : String
  title : String
  quantity : Int
  unit_price : Rat
  notes : Option String
deriving DecidableEq, Repr

/-- Model of schemas.py `Order`: the status and payment-status `Literal`s are
stored as strings with validation expressed by `Order.validB`;
`created_at: Optional[datetime]` is an opaque timestamp. -/
structure Order where
  customer_name : Option String
  table_number : Option String
  items : List OrderItem
  total_amount : Rat
  status : String
  payment_status : String
  created_at : Option Nat
deriving DecidableEq, Repr

/-- The four values of the `Order.status` `Literal`. -/
def statusEnum : List String := ["Pending", "Ready", "Completed", "Canceled"]

/-- The three values of the `Order.payment_status` `Literal`. -/
def paymentEnum : List String := ["Unpaid", "Paid", "Refunded"]

/-- The pydantic validation constraints on `Order` (checked by FastAPI
when parsing a `POST /api/orders` body): both enum fields, item
quantities ≥ 1, unit prices ≥ 0, total ≥ 0. -/
def Order.validB (o : Order) : Bool :=
  statusEnum.contains o.status && paymentEnum.contains o.payment_status
    && o.items.all (fun i => decide (1 ≤ i.quantity) && decide (0 ≤ i.unit_price))
    && decide (0 ≤ o.total_amount)

/-- A stored order document: payload fields plus `_id`. -/
structure OrderDoc where
  _id : String
  body : Order
deriving DecidableEq, Repr

/-- Model of `oid_str` output shape for an order document. -/
structure OrderOut where
  id : String
  body : Order
deriving DecidableEq, Repr

/-- Model of main.py `create_order` handler body: insert the parsed payload
as-is (the storage layer assigns `newId`), re-fetch by id, normalise. -/
def create_order (payload : Order) (newId : String) (db : List OrderDoc) :
    Option OrderOut × List OrderDoc :=
  let db2 := db ++ [⟨newId, payload⟩]
  ((db2.find? (fun d => decide (d._id = newId))).map (fun d => ⟨d._id, d.body⟩), db2)

/-- Model of `POST /api/orders` as routed by FastAPI: the body must satisfy the
pydantic `Order` schema (otherwise the request is rejected with a 422
before the handler runs), then the handler body executes. -/
def create_order_route (payload : Order) (newId : String) (db : List OrderDoc) :
    Except HErr (Option OrderOut) × List OrderDoc :=
  if payload.validB then
    let r := create_order payload newId db
    (.ok r.1, r.2)
  else (.error (.httpExc 422 "Unprocessable Entity"), db)

/-- Model of `GET /api/orders?status=` (main.py `list_orders`), after the admin
dependency: query is `{"status": status}` when the parameter is truthy,
`{}` otherwise; matching orders sorted by `_id` descending (most recent
first). -/
def list_orders (status : Option String) (db : List OrderDoc) : List OrderOut :=
  let q : Option String := if pyTruthy status then status else none
  let hits := db.filter (fun d =>
    match q with
    | none => true
    | some s => decide (d.body.status = s))
  (sortBy (fun a b => strLe b._id a._id) hits).map (fun d => ⟨d._id, d.body⟩)

/-- Model of `PATCH /api/orders/{order_id}` (main.py `update_order_status`), after
the admin dependency: the body is `OrderStatusUpdate` whose `status`
field is a plain `str` (no enum validation); validate the id, `$set`
only the status on the first matching order, re-fetch; 404 if absent. -/
def update_order_status (order_id : String) (body_status : String)
    (db : List OrderDoc) : Except HErr OrderOut × List OrderDoc :=
  match PyObjectId.validate order_id with
  | .error e => (.error e, db)
  | .ok oid =>
    let db2 := update_one (fun d => decide (d._id = oid))
      (fun d => { d with body := { d.body with status := body_status } }) db
    match db2.find? (fun d => decide (d._id = oid)) with
    | none => (.error (.httpExc 404 "Order not found"), db2)
    | some doc => (.ok ⟨doc._id, doc.body⟩, db2)

/-- The minimal projection `GET /api/orders/track/{order_id}` returns:
only `id` and `status`. -/
structure TrackOut where
  id : String
  status : String
deriving DecidableEq, Repr

/-- Model of `GET /api/orders/track/{order_id}` (main.py `track_order`): public;
validate the id, fetch with a `{"status": 1}` projection, return
`{id, status}`; 404 if absent. -/
def track_order (order_id : String) (db : List OrderDoc) :
    Except HErr TrackOut × List OrderDoc :=
  match PyObjectId.validate order_id with
  | .error e => (.error e, db)
  | .ok oid =>
    match db.find? (fun d => decide (d._id = oid)) with
    | none => (.error (.httpExc 404 "Order not found"), db)
    | some doc => (.ok ⟨doc._id, doc.body.status⟩, db)

/-! ## Review service (`review` collection) -/

/-- Model of schemas.py `Review`: `rating: int (ge=1, le=5)`, everything else
optional. -/
structure Review where
  rating : Int
  comment : Option String
  photo_url : Option String
  customer_name : Option String
  order_id : Option String
  created_at : Option Nat
deriving DecidableEq, Repr

/-- A stored review document.  Its `_id` is the storage-assigned
ObjectId; ObjectIds generated by a single process are strictly
increasing with insertion order, modelled by a `Nat` counter in
`ReviewsDB`. -/
structure ReviewDoc where
  _id : Nat
  body : Review
deriving DecidableEq, Repr

/-- Model of `oid_str` output shape for a review document. -/
structure ReviewOut where
  id : String
  body : Review
deriving DecidableEq, Repr

/-- The `review` collection together with the storage layer's id
generator: documents in insertion order, `nextId` the next ObjectId to
be assigned (ObjectIds increase with insertion order). -/
structure ReviewsDB where
  docs : List ReviewDoc
  nextId : Nat
deriving DecidableEq, Repr

/-- Well-formedness of the `review` collection as the storage layer
maintains it: document ids strictly increase along insertion order and
stay below the generator's next id. -/
def ReviewsDB.wf (db : ReviewsDB) : Prop :=
  db.docs.Pairwise (fun a b => a._id < b._id) ∧ ∀ d ∈ db.docs, d._id < db.nextId

instance (db : ReviewsDB) : Decidable db.wf := by
  unfold ReviewsDB.wf; infer_instance

/-- Model of `POST /api/reviews` (main.py `create_review`): insert the payload
unconditionally (the storage layer assigns the next id), re-fetch by id,
normalise. -/
def create_review (review : Review) (db : ReviewsDB) :
    Option ReviewOut × ReviewsDB :=
  let newId := db.nextId
  let docs2 := db.docs ++ [⟨newId, review⟩]
  ((docs2.find? (fun d => decide (d._id = newId))).map
      (fun d => ⟨toString d._id, d.body⟩),
    ⟨docs2, newId + 1⟩)

/-- Model of `GET /api/reviews?limit=` (main.py `list_reviews`): all reviews
sorted by `_id` descending, capped at `limit` (route default 20). -/
def list_reviews (db : ReviewsDB) (limit : Nat := 20) : List ReviewOut :=
  ((sortBy (fun a b => decide (b._id ≤ a._id)) db.docs).take limit).map
    (fun d => ⟨toString d._id, d.body⟩)

/-! ## Settings service (`restaurantsettings` collection) -/

/-- Model of schemas.py `RestaurantSettings` (URL and email fields as plain
strings). -/
structure RestaurantSettings where
  restaurant_name : String
  logo_url : Option String
  primary_color : String
  languages : List String
  default_language : String
  theme : String
  currency : String
  address : Option String
  contact_email : Option String
deriving DecidableEq, Repr

/-- Model of `RestaurantSettings()`: every field at its schema default. -/
def RestaurantSettings.defaults : RestaurantSettings :=
  ⟨"Your Restaurant", none, "#4f46e5", ["en", "ar"], "en", "light", "USD", none, none⟩

/-- A stored settings document. -/
structure SettingsDoc where
  _id : Nat
  body : RestaurantSettings
deriving DecidableEq, Repr

/-- The response shape of `GET /api/settings`: either the constructed
default dict, which carries `"_seed": True` and no `id` key, or a stored
document normalised by `oid_str` (an `id` key, no `_seed` key). -/
inductive SettingsOut where
  | seeded (body : RestaurantSettings) (seedFlag : Bool)
  | stored (id : String) (body : RestaurantSettings)
deriving DecidableEq, Repr

/-- Model of `GET /api/settings` (main.py `get_settings`): `find_one({})` on the
collection (its first document); if none exists, return
`RestaurantSettings().model_dump()` with `_seed = True` WITHOUT
persisting anything; otherwise return the stored document via
`oid_str`. -/
def get_settings (db : List SettingsDoc) : SettingsOut × List SettingsDoc :=
  match db.find? (fun _ => true) with
  | none => (.seeded RestaurantSettings.defaults true, db)
  | some doc => (.stored (toString doc._id) doc.body, db)

/-! ## Lemmas about the collection operations -/

theorem find?_update_one (p : α → Bool) (f : α → α) (hpf : ∀ a, p (f a) = p a)
    (l : List α) : (update_one p f l).find? p = (l.find? p).map f := by
  induction l with
  | nil => rfl
  | cons a t ih =>
    by_cases h : p a = true
    · rw [update_one, if_pos h, List.find?_cons_of_pos _ ((hpf a).trans h),
        List.find?_cons_of_pos _ h, Option.map_some']
    · rw [update_one, if_neg h, List.find?_cons_of_neg _ h, List.find?_cons_of_neg _ h, ih]

theorem find?_update_reward (k : Nat) (np : Int) (t : String) (l : List RewardDoc) :
    (update_one (fun a => decide (a._id = k))
        (fun a => { a with points := np, tier := t }) l).find?
        (fun a => decide (a._id = k))
      = (l.find? (fun a => decide (a._id = k))).map
          (fun a => { a with points := np, tier := t }) := by
  apply find?_update_one
  intro x
  rfl

theorem find?_update_status (k : String) (st : String) (l : List OrderDoc) :
    (update_one (fun d => decide (d._id = k))
        (fun d => { d with body := { d.body with status := st } }) l).find?
        (fun d => decide (d._id = k))
      = (l.find? (fun d => decide (d._id = k))).map
          (fun d => { d with body := { d.body with status := st } }) := by
  apply find?_update_one
  intro x
  rfl

theorem find?_update_menu (k : String) (m : MenuItem) (l : List MenuDoc) :
    (update_one (fun d => decide (d._id = k))
        (fun d => { d with body := m }) l).find?
        (fun d => decide (d._id = k))
      = (l.find? (fun d => decide (d._id = k))).map
          (fun d => { d with body := m }) := by
  apply find?_update_one
  intro x
  rfl

theorem update_one_of_find?_none (p : α → Bool) (f : α → α)
    (l : List α) (h : l.find? p = none) : update_one p f l = l := by
  induction l with
  | nil => rfl
  | cons a t ih =>
    rw [List.find?_cons] at h
    by_cases ha : p a = true
    · simp [ha] at h
    · rw [update_one, if_neg ha, ih (by simpa [ha] using h)]

theorem mem_update_one (p : α → Bool) (f : α → α) (l : List α) (x : α)
    (hx : x ∈ update_one p f l) : x ∈ l ∨ ∃ y ∈ l, x = f y := by
  induction l with
  | nil => simp [update_one] at hx
  | cons a t ih =>
    by_cases h : p a = true
    · rw [update_one, if_pos h] at hx
      rcases List.mem_cons.mp hx with h1 | h2
      · exact Or.inr ⟨a, List.mem_cons_self a t, h1⟩
      · exact Or.inl (List.mem_cons_of_mem a h2)
    · rw [update_one, if_neg h] at hx
      rcases List.mem_cons.mp hx with h1 | h2
      · exact Or.inl (h1 ▸ List.mem_cons_self a t)
      · rcases ih h2 with h3 | ⟨y, hy, hxy⟩
        · exact Or.inl (List.mem_cons_of_mem a h3)
        · exact Or.inr ⟨y, List.mem_cons_of_mem a hy, hxy⟩

theorem update_one_eq_map {β : Type} [DecidableEq β] (key : α → β) (k : β)
    (f : α → α) (l : List α) (hn : (l.map key).Nodup) :
    update_one (fun e => decide (key e = k)) f l
      = l.map (fun e => if key e = k then f e else e) := by
  induction l with
  | nil => rfl
  | cons a t ih =>
    rw [List.map_cons, List.nodup_cons] at hn
    by_cases h : key a = k
    · rw [update_one, if_pos (by simpa using h), List.map_cons, if_pos h]
      have ht : ∀ e ∈ t, (if key e = k then f e else e) = e := by
        intro e he
        rw [if_neg]
        intro hek
        exact hn.1 (by rw [h, ← hek]; exact List.mem_map_of_mem key he)
      rw [List.map_congr_left ht, List.map_id']
    · rw [update_one, if_neg (by simpa using h), List.map_cons, if_neg h, ih hn.2]

theorem length_insertSorted (le : α → α → Bool) (a : α) :
    ∀ l : List α, (insertSorted le a l).length = l.length + 1
  | [] => rfl
  | b :: t => by
    by_cases h : le a b = true
    · rw [insertSorted, if_pos h, List.length_cons, List.length_cons]
    · rw [insertSorted, if_neg h, List.length_cons, length_insertSorted le a t,
        List.length_cons]

theorem length_sortBy (le : α → α → Bool) :
    ∀ l : List α, (sortBy le l).length = l.length
  | [] => rfl
  | a :: t => by
    rw [sortBy, length_insertSorted, length_sortBy le t, List.length_cons]

theorem mem_insertSorted (le : α → α → Bool) (a x : α) :
    ∀ l : List α, x ∈ insertSorted le a l ↔ x = a ∨ x ∈ l
  | [] => by simp [insertSorted]
  | b :: t => by
    by_cases h : le a b = true
    · rw [insertSorted, if_pos h]
      simp
    · rw [insertSorted, if_neg h]
      rw [List.mem_cons, List.mem_cons, mem_insertSorted le a x t]
      tauto

theorem mem_sortBy (le : α → α → Bool) (x : α) :
    ∀ l : List α, x ∈ sortBy le l ↔ x ∈ l
  | [] => Iff.rfl
  | a :: t => by
    rw [sortBy, mem_insertSorted, mem_sortBy le x t, List.mem_cons]

theorem insertSorted_append (le : α → α → Bool) (a : α) :
    ∀ l : List α, (∀ b ∈ l, le a b = false) → insertSorted le a l = l ++ [a]
  | [], _ => rfl
  | b :: t, h => by
    rw [insertSorted, if_neg (by rw [h b (List.mem_cons_self b t)]; exact Bool.false_ne_true),
      insertSorted_append le a t (fun c hc => h c (List.mem_cons_of_mem b hc)),
      List.cons_append]

theorem sortBy_eq_reverse (key : α → Nat) :
    ∀ l : List α, l.Pairwise (fun a b => key a < key b) →
      sortBy (fun a b => decide (key b ≤ key a)) l = l.reverse
  | [], _ => rfl
  | a :: t, h => by
    rcases List.pairwise_cons.mp h with ⟨ha, ht⟩
    rw [sortBy, sortBy_eq_reverse key t ht,
      insertSorted_append _ _ _ (by
        intro b hb
        simpa using Nat.not_le.mpr (ha b (List.mem_reverse.mp hb))),
      List.reverse_cons]

/-! ## Behaviour of `add_points` (shared by the rewards claims) -/

/-- Every call of `add_points` returns a (non-null) account whose points are the
clamped sum and whose tier is the threshold function of those points. -/
theorem add_points_spec (phone : String) (body_points : Int) (freshId : Nat)
    (db : List RewardDoc) :
    ∃ out : RewardOut,
      (add_points phone body_points freshId db).1 = some out ∧
      out.points = max 0 (storedPoints phone db + body_points) ∧
      out.tier = (if out.points ≥ 500 then "Gold"
        else if out.points ≥ 200 then "Silver" else "Bronze") := by
  cases hf : db.find? (fun a => decide (a.customer_phone = phone)) with
  | some a =>
    have hsome : (db.find? (fun x => decide (x._id = a._id))).isSome :=
      List.find?_isSome.mpr ⟨a, List.mem_of_find?_eq_some hf, by simp⟩
    obtain ⟨a', ha'⟩ := Option.isSome_iff_exists.mp hsome
    refine ⟨rewardOut { a' with
        points := max 0 (a.points + body_points),
        tier := if max 0 (a.points + body_points) ≥ 500 then "Gold"
          else if max 0 (a.points + body_points) ≥ 200 then "Silver"
          else "Bronze" }, ?_, ?_, ?_⟩
    · simp only [add_points, hf]
      rw [find?_update_reward, ha']
      rfl
    · simp [rewardOut, storedPoints, hf]
    · simp [rewardOut]
  | none =>
    have hsome : ((db ++ [(⟨freshId, phone, 0, "Bronze"⟩ : RewardDoc)]).find?
        (fun x => decide (x._id = freshId))).isSome :=
      List.find?_isSome.mpr ⟨⟨freshId, phone, 0, "Bronze"⟩, by simp, by simp⟩
    obtain ⟨a', ha'⟩ := Option.isSome_iff_exists.mp hsome
    refine ⟨rewardOut { a' with
        points := max 0 ((0 : Int) + body_points),
        tier := if max 0 ((0 : Int) + body_points) ≥ 500 then "Gold"
          else if max 0 ((0 : Int) + body_points) ≥ 200 then "Silver"
          else "Bronze" }, ?_, ?_, ?_⟩
    · simp only [add_points, hf]
      rw [find?_update_reward, ha']
      rfl
    · simp [rewardOut, storedPoints, hf]
    · simp [rewardOut]

/-- Every account stored after `add_points` has non-negative points,
provided all stored points were non-negative beforehand. -/
theorem add_points_store_nonneg (phone : String) (body_points : Int)
    (freshId : Nat) (db : List RewardDoc) (hnn : ∀ a ∈ db, 0 ≤ a.points) :
    ∀ a ∈ (add_points phone body_points freshId db).2, 0 ≤ a.points := by
  intro x hx
  cases hf : db.find? (fun a => decide (a.customer_phone = phone)) with
  | some a =>
    simp only [add_points, hf] at hx
    rcases mem_update_one _ _ _ _ hx with h1 | ⟨y, _, hxy⟩
    · exact hnn x h1
    · rw [hxy]; exact le_max_left 0 _
  | none =>
    simp only [add_points, hf] at hx
    rcases mem_update_one _ _ _ _ hx with h1 | ⟨y, _, hxy⟩
    · rcases List.mem_append.mp h1 with h2 | h2
      · exact hnn x h2
      · simp [List.mem_singleton.mp h2]
    · rw [hxy]; exact le_max_left 0 _

/-! ## The claims -/

/-- Claim C1: after `POST rewards/{phone}/add` the stored (and returned)
tier is the fixed threshold function of the new point total — Gold for
points ≥ 500, Silver for 200 ≤ points < 500, Bronze for points < 200; in
particular a resulting total of 199 yields Bronze, 200 yields Silver,
499 yields Silver and 500 yields Gold. -/
theorem C1_add_points_tier_rule (phone : String) (body_points : Int)
    (freshId : Nat) (db : List RewardDoc) :
    (∃ out : RewardOut,
      (add_points phone body_points freshId db).1 = some out ∧
      out.tier = (if out.points ≥ 500 then "Gold"
        else if out.points ≥ 200 then "Silver" else "Bronze"))
    ∧ (add_points "p" 199 1 []).1 = some ⟨"1", "p", 199, "Bronze"⟩
    ∧ (add_points "p" 200 1 []).1 = some ⟨"1", "p", 200, "Silver"⟩
    ∧ (add_points "p" 499 1 []).1 = some ⟨"1", "p", 499, "Silver"⟩
    ∧ (add_points "p" 500 1 []).1 = some ⟨"1", "p", 500, "Gold"⟩ := by
  refine ⟨?_, by decide, by decide, by decide, by decide⟩
  obtain ⟨out, h1, _, h3⟩ := add_points_spec phone body_points freshId db
  exact ⟨out, h1, h3⟩

/-- Claim C2: `POST rewards/{phone}/add` stores
`points = max(0, current + delta)`, so points are clamped at zero and the
whole collection keeps non-negative point totals; an account at 0 points
given `add(-50)` ends at points 0 / tier Bronze. -/
theorem C2_add_points_clamp (phone : String) (body_points : Int)
    (freshId : Nat) (db : List RewardDoc) (hnn : ∀ a ∈ db, 0 ≤ a.points) :
    (∃ out : RewardOut,
      (add_points phone body_points freshId db).1 = some out ∧
      out.points = max 0 (storedPoints phone db + body_points) ∧
      0 ≤ out.points)
    ∧ (∀ a ∈ (add_points phone body_points freshId db).2, 0 ≤ a.points)
    ∧ (add_points "p" (-50) 1 [⟨1, "p", 0, "Bronze"⟩]).1
        = some ⟨"1", "p", 0, "Bronze"⟩ := by
  refine ⟨?_, add_points_store_nonneg phone body_points freshId db hnn, by decide⟩
  obtain ⟨out, h1, h2, _⟩ := add_points_spec phone body_points freshId db
  exact ⟨out, h1, h2, h2 ▸ le_max_left 0 _⟩

theorem C2_witness :
    (∀ a ∈ ([⟨1, "p", 0, "Bronze"⟩] : List RewardDoc), 0 ≤ a.points)
    ∧ (add_points "p" (-50) 1 [⟨1, "p", 0, "Bronze"⟩]).1
        = some ⟨"1", "p", 0, "Bronze"⟩ :=
  ⟨by decide, (C2_add_points_clamp "p" (-50) 1 [⟨1, "p", 0, "Bronze"⟩] (by decide)).2.2⟩

/-- Claim C3: `GET rewards/{phone}` for a phone with no stored account
creates and returns `{customer_phone: phone, points: 0, tier: Bronze}`
(with the normalised id), and a second `GET` for the same phone returns
the very same account and leaves the collection unchanged. -/
theorem C3_get_rewards_get_or_create (phone : String) (freshId : Nat)
    (db : List RewardDoc)
    (habs : db.find? (fun a => decide (a.customer_phone = phone)) = none) :
    get_rewards phone freshId db
      = (⟨toString freshId, phone, 0, "Bronze"⟩,
          db ++ [⟨freshId, phone, 0, "Bronze"⟩])
    ∧ ∀ freshId2 : Nat,
        get_rewards phone freshId2 (db ++ [⟨freshId, phone, 0, "Bronze"⟩])
          = (⟨toString freshId, phone, 0, "Bronze"⟩,
              db ++ [⟨freshId, phone, 0, "Bronze"⟩]) := by
  constructor
  · unfold get_rewards
    rw [habs]
    rfl
  · intro freshId2
    unfold get_rewards
    rw [List.find?_append, habs]
    simp [rewardOut]

theorem C3_witness :
    ([] : List RewardDoc).find? (fun a => decide (a.customer_phone = "5550001")) = none
    ∧ get_rewards "5550001" 9 []
        = (⟨"9", "5550001", 0, "Bronze"⟩, [⟨9, "5550001", 0, "Bronze"⟩])
    ∧ ∀ freshId2 : Nat,
        get_rewards "5550001" freshId2 [⟨9, "5550001", 0, "Bronze"⟩]
          = (⟨"9", "5550001", 0, "Bronze"⟩, [⟨9, "5550001", 0, "Bronze"⟩]) := by
  refine ⟨by decide, ?_⟩
  have h := C3_get_rewards_get_or_create "5550001" 9 [] (by decide)
  simpa using h

/-- Claim C4 counterexample: the claim says only a header of the exact
form `Bearer <token>` with the configured token is accepted and "no
other header value is accepted"; but `require_admin` merely deletes the
substring `"Bearer "` before comparing, so sending the bare admin token
(default configuration) — a header NOT of that form — is accepted. -/
theorem C4_counterexample :
    require_admin (some defaultAdminToken) defaultAdminToken = .ok true
    ∧ defaultAdminToken ≠ "Bearer " ++ defaultAdminToken := by
  constructor
  · decide
  · decide

/-- Claim C4 (amended): a request with no `Authorization` header — or
with an empty one, which Python truthiness treats the same way — fails
with 401 regardless of the payload and of the configured token; a
present non-empty header is accepted exactly when deleting every
occurrence of `"Bearer "` from it yields the configured admin token (so
`Bearer <token>` is accepted, but so is the bare token), and any other
header fails with 401 before the handler body runs. -/
theorem C4_require_admin (auth : Option String) (tok : String) :
    (auth = none →
      require_admin auth tok = .error (.httpExc 401 "Unauthorized"))
    ∧ (require_admin (some "") tok = .error (.httpExc 401 "Unauthorized"))
    ∧ (∀ h, auth = some h → h ≠ "" →
        (require_admin auth tok = .ok true ↔ removeBearerStr h = tok))
    ∧ (∀ h, auth = some h → h ≠ "" → removeBearerStr h ≠ tok →
        require_admin auth tok = .error (.httpExc 401 "Unauthorized"))
    ∧ (∀ (α : Type) (handler : Except HErr α),
        require_admin auth tok = .error (.httpExc 401 "Unauthorized") →
        adminRoute auth tok handler = .error (.httpExc 401 "Unauthorized")) := by
  refine ⟨?_, ?_, ?_, ?_, ?_⟩
  · rintro rfl
    rfl
  · rfl
  · rintro h rfl hemp
    have hpt : pyTruthy (some h) = true := by simp [pyTruthy, hemp]
    constructor
    · intro hok
      by_contra hne
      simp only [require_admin, hpt, if_true, Option.map_some'] at hok
      rw [if_neg (by simpa using hne)] at hok
      exact Except.noConfusion hok
    · intro heq
      simp only [require_admin, hpt, if_true, Option.map_some']
      rw [if_pos (by simpa using heq)]
  · rintro h rfl hemp hne
    have hpt : pyTruthy (some h) = true := by simp [pyTruthy, hemp]
    simp only [require_admin, hpt, if_true, Option.map_some']
    rw [if_neg (by simpa using hne)]
  · intro α handler herr
    rw [adminRoute, herr]

theorem C4_witness :
    (some "Bearer tok123" : Option String) = some "Bearer tok123"
    ∧ "Bearer tok123" ≠ ""
    ∧ require_admin (some "Bearer tok123") "tok123" = .ok true :=
  ⟨rfl, by decide,
    ((C4_require_admin (some "Bearer tok123") "tok123").2.2.1
      "Bearer tok123" rfl (by decide)).mpr (by decide)⟩

/-- After a `PATCH orders/{id}` whose id validates, the stored collection
is the first-match `$set` of the status field. -/
theorem update_order_status_state (s body_status oid : String)
    (db : List OrderDoc) (hval : PyObjectId.validate s = .ok oid) :
    (update_order_status s body_status db).2
      = update_one (fun d => decide (d._id = oid))
          (fun d => { d with body := { d.body with status := body_status } }) db := by
  simp only [update_order_status, hval]
  rcases h : (update_one (fun d => decide (d._id = oid))
      (fun d => { d with body := { d.body with status := body_status } }) db).find?
      (fun d => decide (d._id = oid)) with _ | d <;> simp [h]

/-- Claim C5 counterexample: a stored order with the valid status
`Pending` can be patched to the status string `Bogus`, which is outside
the four-valued enum — the enum invariant is NOT preserved by every
successful `PATCH orders/{id}`. -/
theorem C5_counterexample :
    (update_order_status "aaaaaaaaaaaaaaaaaaaaaaaa" "Bogus"
        [⟨"aaaaaaaaaaaaaaaaaaaaaaaa", ⟨none, none, [], 0, "Pending", "Unpaid", none⟩⟩]).1
      = .ok ⟨"aaaaaaaaaaaaaaaaaaaaaaaa", ⟨none, none, [], 0, "Bogus", "Unpaid", none⟩⟩
    ∧ (update_order_status "aaaaaaaaaaaaaaaaaaaaaaaa" "Bogus"
        [⟨"aaaaaaaaaaaaaaaaaaaaaaaa", ⟨none, none, [], 0, "Pending", "Unpaid", none⟩⟩]).2
      = [⟨"aaaaaaaaaaaaaaaaaaaaaaaa", ⟨none, none, [], 0, "Bogus", "Unpaid", none⟩⟩]
    ∧ Order.validB ⟨none, none, [], 0, "Pending", "Unpaid", none⟩ = true
    ∧ statusEnum.contains "Bogus" = false :=
  ⟨by decide, by decide, by decide, by decide⟩

/-- Claim C5 (amended): every order stored by `POST orders` has a status
in the four-valued enum (pydantic validates the payload), and a
`PATCH orders/{id}` preserves the enum invariant exactly when its body
status is itself one of the four values — the PATCH body is an arbitrary
string that is written as-is onto the matched order. -/
theorem C5_order_status_enum (db : List OrderDoc)
    (hdb : ∀ d ∈ db, statusEnum.contains d.body.status = true) :
    (∀ (payload : Order) (newId : String), payload.validB = true →
      ∀ d ∈ (create_order_route payload newId db).2,
        statusEnum.contains d.body.status = true)
    ∧ (∀ (s body_status : String), statusEnum.contains body_status = true →
      ∀ d ∈ (update_order_status s body_status db).2,
        statusEnum.contains d.body.status = true)
    ∧ (∀ (s body_status oid : String) (doc : OrderDoc),
        PyObjectId.validate s = .ok oid →
        db.find? (fun d => decide (d._id = oid)) = some doc →
        ((update_order_status s body_status db).2).find?
            (fun d => decide (d._id = oid))
          = some { doc with body := { doc.body with status := body_status } }) := by
  refine ⟨?_, ?_, ?_⟩
  · intro payload newId hv d hd
    simp only [create_order_route, if_pos hv, create_order] at hd
    rcases List.mem_append.mp hd with h1 | h1
    · exact hdb d h1
    · rw [List.mem_singleton.mp h1]
      have hv' := hv
      simp only [Order.validB, Bool.and_eq_true] at hv'
      exact hv'.1.1.1
  · intro s body_status hbs d hd
    cases hval : PyObjectId.validate s with
    | error e =>
      simp only [update_order_status, hval] at hd
      exact hdb d hd
    | ok oid =>
      rw [update_order_status_state s body_status oid db hval] at hd
      rcases mem_update_one _ _ _ _ hd with h1 | ⟨y, _, hdy⟩
      · exact hdb d h1
      · rw [hdy]
        exact hbs
  · intro s body_status oid doc hval hdoc
    rw [update_order_status_state s body_status oid db hval,
      find?_update_status, hdoc, Option.map_some']

theorem C5_witness :
    (∀ d ∈ ([⟨"aaaaaaaaaaaaaaaaaaaaaaaa",
        ⟨none, none, [], 0, "Pending", "Unpaid", none⟩⟩] : List OrderDoc),
      statusEnum.contains d.body.status = true)
    ∧ (∀ d ∈ (update_order_status "aaaaaaaaaaaaaaaaaaaaaaaa" "Ready"
        [⟨"aaaaaaaaaaaaaaaaaaaaaaaa",
          ⟨none, none, [], 0, "Pending", "Unpaid", none⟩⟩]).2,
        statusEnum.contains d.body.status = true) :=
  ⟨by decide, (C5_order_status_enum _ (by decide)).2.1
    "aaaaaaaaaaaaaaaaaaaaaaaa" "Ready" (by decide)⟩

/-- Claim C6 counterexample: a malformed identifier on `PUT menu/{id}`
does fail before any document access, but by an uncaught
`ValueError("Invalid ObjectId")`, which the framework surfaces as a 500
Internal Server Error — not as the 422-class structured validation error
the claim states. -/
theorem C6_counterexample :
    (update_menu_item "not-an-objectid" ⟨"Tea", none, 1, "Drinks", none, true⟩ []).1
      = .error (.valueError "Invalid ObjectId")
    ∧ responseStatus (.valueError "Invalid ObjectId") = 500
    ∧ responseStatus (.valueError "Invalid ObjectId") ≠ 422 :=
  ⟨by decide, rfl, by decide⟩

/-- Claim C6 (amended): for every identifier path parameter that is not a
well-formed storage identifier, each of the four id-taking operations
(menu PUT, menu DELETE, order PATCH, order track) fails before any
document is read or written (the collection is returned unchanged), but
with an uncaught `ValueError` that surfaces as a 500 internal error
rather than a 422 validation error. -/
theorem C6_invalid_id_500 (s : String) (hs : objectIdIsValid s = false) :
    (∀ (item : MenuItem) (mdb : List MenuDoc),
      update_menu_item s item mdb = (.error (.valueError "Invalid ObjectId"), mdb))
    ∧ (∀ mdb : List MenuDoc,
      delete_menu_item s mdb = (.error (.valueError "Invalid ObjectId"), mdb))
    ∧ (∀ (body_status : String) (odb : List OrderDoc),
      update_order_status s body_status odb = (.error (.valueError "Invalid ObjectId"), odb))
    ∧ (∀ odb : List OrderDoc,
      track_order s odb = (.error (.valueError "Invalid ObjectId"), odb))
    ∧ responseStatus (.valueError "Invalid ObjectId") = 500
    ∧ responseStatus (.valueError "Invalid ObjectId") ≠ 422 := by
  have hv : PyObjectId.validate s = .error (.valueError "Invalid ObjectId") := by
    rw [PyObjectId.validate, if_neg (by simp [hs])]
  refine ⟨?_, ?_, ?_, ?_, rfl, by decide⟩
  · intro item mdb
    simp only [update_menu_item, hv]
  · intro mdb
    simp only [delete_menu_item, hv]
  · intro body_status odb
    simp only [update_order_status, hv]
  · intro odb
    simp only [track_order, hv]

theorem C6_witness :
    objectIdIsValid "not-an-objectid" = false
    ∧ (∀ odb : List OrderDoc,
        track_order "not-an-objectid" odb
          = (.error (.valueError "Invalid ObjectId"), odb)) :=
  ⟨by decide, (C6_invalid_id_500 "not-an-objectid" (by decide)).2.2.2.1⟩

/-- Claim C7: for an existing order, `PATCH orders/{id}` rewrites only
the status field of that order — every other field (payment_status
included) and every other order are unchanged — and for a well-formed id
matching no order it fails with 404 NotFound. -/
theorem C7_update_order_frame (s body_status : String) (db : List OrderDoc)
    (oid : String) (hval : PyObjectId.validate s = .ok oid)
    (hnodup : (db.map OrderDoc._id).Nodup) :
    (∀ doc, db.find? (fun d => decide (d._id = oid)) = some doc →
      update_order_status s body_status db
        = (.ok ⟨doc._id, { doc.body with status := body_status }⟩,
            db.map (fun e => if e._id = oid
              then { e with body := { e.body with status := body_status } } else e)))
    ∧ (db.find? (fun d => decide (d._id = oid)) = none →
      update_order_status s body_status db
        = (.error (.httpExc 404 "Order not found"), db)) := by
  constructor
  · intro doc hdoc
    simp only [update_order_status, hval]
    rw [find?_update_status, hdoc, Option.map_some',
      update_one_eq_map OrderDoc._id oid _ db hnodup]
  · intro hnone
    simp only [update_order_status, hval]
    rw [find?_update_status, hnone, Option.map_none',
      update_one_of_find?_none _ _ db hnone]

theorem C7_witness :
    PyObjectId.validate "0123456789abcdef01234567" = .ok "0123456789abcdef01234567"
    ∧ (([⟨"0123456789abcdef01234567",
          ⟨some "Ana", some "4", [], 0, "Pending", "Unpaid", none⟩⟩] : List OrderDoc).map
        OrderDoc._id).Nodup
    ∧ ([⟨"0123456789abcdef01234567",
          ⟨some "Ana", some "4", [], 0, "Pending", "Unpaid", none⟩⟩] : List OrderDoc).find?
        (fun d => decide (d._id = "0123456789abcdef01234567"))
      = some ⟨"0123456789abcdef01234567",
          ⟨some "Ana", some "4", [], 0, "Pending", "Unpaid", none⟩⟩
    ∧ update_order_status "0123456789abcdef01234567" "Completed"
        [⟨"0123456789abcdef01234567",
          ⟨some "Ana", some "4", [], 0, "Pending", "Unpaid", none⟩⟩]
      = (.ok ⟨"0123456789abcdef01234567",
            ⟨some "Ana", some "4", [], 0, "Completed", "Unpaid", none⟩⟩,
          [⟨"0123456789abcdef01234567",
            ⟨some "Ana", some "4", [], 0, "Completed", "Unpaid", none⟩⟩]) := by
  refine ⟨by decide, by decide, by decide, ?_⟩
  have h := (C7_update_order_frame "0123456789abcdef01234567" "Completed"
      [⟨"0123456789abcdef01234567",
        ⟨some "Ana", some "4", [], 0, "Pending", "Unpaid", none⟩⟩]
      "0123456789abcdef01234567" (by decide) (by decide)).1
      ⟨"0123456789abcdef01234567",
        ⟨some "Ana", some "4", [], 0, "Pending", "Unpaid", none⟩⟩ (by decide)
  simpa using h

/-- Claim C8: with no stored settings document, `GET settings` returns
the constructed defaults carrying `_seed = true` and writes nothing (a
later GET still finds no stored document); with a stored document it is
returned with the internal identifier rendered as a string `id` and no
`_seed` flag (the `stored` response shape). -/
theorem C8_get_settings (db : List SettingsDoc) :
    ((get_settings db).2 = db)
    ∧ (db = [] →
        get_settings db = (.seeded RestaurantSettings.defaults true, db)
        ∧ (get_settings ((get_settings db).2)).1
            = .seeded RestaurantSettings.defaults true)
    ∧ (∀ (d : SettingsDoc) (rest : List SettingsDoc), db = d :: rest →
        get_settings db = (.stored (toString d._id) d.body, db)) := by
  refine ⟨?_, ?_, ?_⟩
  · cases db <;> rfl
  · rintro rfl
    exact ⟨rfl, rfl⟩
  · rintro d rest rfl
    rfl

theorem C8_witness :
    ([] : List SettingsDoc) = []
    ∧ get_settings ([] : List SettingsDoc)
        = (.seeded RestaurantSettings.defaults true, [])
    ∧ (get_settings ((get_settings ([] : List SettingsDoc)).2)).1
        = .seeded RestaurantSettings.defaults true :=
  ⟨rfl, ((C8_get_settings []).2.1 rfl).1, ((C8_get_settings []).2.1 rfl).2⟩

/-- Claim C10: supplying the optional filter query parameter as the
empty string behaves exactly like omitting it — `GET menu` with
`category=""` returns every menu item (not the empty-category ones, not
an empty list), and `GET orders` with `status=""` returns every
order. -/
theorem C10_empty_filter (mdb : List MenuDoc) (odb : List OrderDoc) :
    list_menu (some "") mdb = list_menu none mdb
    ∧ (list_menu (some "") mdb).length = mdb.length
    ∧ (∀ d ∈ mdb, (⟨d._id, d.body⟩ : MenuOut) ∈ list_menu (some "") mdb)
    ∧ list_orders (some "") odb = list_orders none odb
    ∧ (list_orders (some "") odb).length = odb.length := by
  have hm : list_menu (some "") mdb = list_menu none mdb := rfl
  have ho : list_orders (some "") odb = list_orders none odb := rfl
  refine ⟨hm, ?_, ?_, ho, ?_⟩
  · rw [hm]
    simp only [list_menu, pyTruthy]
    simp [length_sortBy]
  · intro d hd
    rw [hm]
    have hall : list_menu none mdb
        = (sortBy (fun a b => strLe a.body.title b.body.title) mdb).map
            (fun e => (⟨e._id, e.body⟩ : MenuOut)) := by
      simp [list_menu, pyTruthy]
    rw [hall]
    exact List.mem_map_of_mem _ ((mem_sortBy _ _ _).mpr hd)
  · rw [ho]
    simp only [list_orders, pyTruthy]
    simp [length_sortBy]

theorem C10_witness :
    (⟨"6500000000000000000000a1",
        ⟨"Tea", none, 1, "Drinks", none, true⟩⟩ : MenuDoc) ∈
      ([⟨"6500000000000000000000a1",
          ⟨"Tea", none, 1, "Drinks", none, true⟩⟩] : List MenuDoc)
    ∧ (⟨"6500000000000000000000a1",
          ⟨"Tea", none, 1, "Drinks", none, true⟩⟩ : MenuOut) ∈
        list_menu (some "")
          [⟨"6500000000000000000000a1", ⟨"Tea", none, 1, "Drinks", none, true⟩⟩] :=
  ⟨by decide,
    (C10_empty_filter
        [⟨"6500000000000000000000a1", ⟨"Tea", none, 1, "Drinks", none, true⟩⟩]
        []).2.2.1
      ⟨"6500000000000000000000a1", ⟨"Tea", none, 1, "Drinks", none, true⟩⟩
      (by decide)⟩

end QR
